import Mathlib

/-!
Verification development for the `elm327` repository: a shallow embedding of
the two GUI applications (`src/main.py`, class `OBDMonitor`, and
`src/src/main.py`, class `MainWindow`) that wrap the external `obd` library.

GUI widgets are embedded as the state they carry (label texts, enabled flags,
combo-box items); side effects on the outside world (message boxes, console
log lines, queries sent on the connection, timer control, file writes) are
embedded as an explicit event list returned by every operation, so that
"issues no query" or "shows a warning" are statements about the event list.

The external `obd` library is embedded at its call boundary: a connection is
a handle carrying a `query` function from commands to results (a decoded
response or a raised exception carrying a message).  Python floats only ever
flow through the code as formatted text (f-strings, CSV cells), so a Pint
quantity's magnitude is embedded as its printed string.
-/

namespace ELM327

/-- OBD command descriptors (`obd.commands.*`): opaque immutable values,
compared by identity. These are the ones the two applications mention. -/
inductive Command where
  | RPM
  | SPEED
  | COOLANT_TEMP
  | INTAKE_TEMP
  | ENGINE_LOAD
  | FUEL_LEVEL
  | THROTTLE_POS
  | TIMING_ADVANCE
  | GET_DTC
  | CLEAR_DTC
  | VIN
  deriving DecidableEq, Repr

/-- The name the library gives each command (`cmd.name`, and the key under
which `obd.commands[name]` finds it). -/
def Command.cname : Command → String
  | .RPM => "RPM"
  | .SPEED => "SPEED"
  | .COOLANT_TEMP => "COOLANT_TEMP"
  | .INTAKE_TEMP => "INTAKE_TEMP"
  | .ENGINE_LOAD => "ENGINE_LOAD"
  | .FUEL_LEVEL => "FUEL_LEVEL"
  | .THROTTLE_POS => "THROTTLE_POS"
  | .TIMING_ADVANCE => "TIMING_ADVANCE"
  | .GET_DTC => "GET_DTC"
  | .CLEAR_DTC => "CLEAR_DTC"
  | .VIN => "VIN"

/-- Decoded response values. A Pint quantity carries a `magnitude` and
`units` attribute (the magnitude kept as its printed text, since the code
only ever formats it); a DTC reply is a list of (code, description) pairs;
anything else is kept as its `str()` form. -/
inductive Value where
  | quantity (magnitude units : String)
  | dtcList (codes : List (String × String))
  | plain (s : String)
  deriving DecidableEq, Repr

/-- Python `str(value)`. For a quantity Pint prints magnitude and units
separated by a space; for a DTC list the exact list repr is irrelevant to
every caller in this code, so it is kept abstractly printable. -/
def Value.str : Value → String
  | .quantity m u => m ++ " " ++ u
  | .dtcList l => "[" ++ String.intercalate ", " (l.map (fun p => "(" ++ p.1 ++ ", " ++ p.2 ++ ")")) ++ "]"
  | .plain s => s

/-- A decoded reply from the library: either the null response
(`response.is_null()` true) or a carried value. -/
inductive Response where
  | null
  | val (v : Value)
  deriving DecidableEq, Repr

/-- `response.is_null()`. -/
def Response.is_null : Response → Bool
  | .null => true
  | .val _ => false

/-- Outcome of `connection.query(cmd)`: a returned response, or a raised
exception carrying its message (`str(e)`). -/
inductive QueryResult where
  | ok (r : Response)
  | exn (msg : String)
  deriving DecidableEq, Repr

end ELM327

namespace OBDMonitor

open ELM327

/-- The `obd.OBD` connection handle as `src/main.py` uses it: its behaviour
under `query`. -/
structure Connection where
  query : Command → QueryResult

/-- One entry of `self.metric_widgets`: the metric name, the command stored
beside its value label, and the label's current text. -/
structure MetricWidget where
  name : String
  command : Command
  label : String
  deriving DecidableEq, Repr

/-- The mutable state of the `OBDMonitor` window. -/
structure OBDState where
  connection : Option Connection
  connected : Bool
  metrics : List (String × Value)
  metricWidgets : List MetricWidget
  timerActive : Bool
  connectButtonText : String
  statusText : String
  statusColor : String

/-- Externally visible effects of one handler invocation. -/
inductive Event where
  | log (msg : String)
  | warnBox (title msg : String)
  | criticalBox (title msg : String)
  | infoBox (title msg : String)
  | query (c : Command)
  | close
  | timerStop
  | timerStart
  | writeFile (lines : List String)
  deriving DecidableEq, Repr

/-- The static metric table of `init_ui` (lines 52–61 of `src/main.py`). -/
def metricsTable : List (String × Command) :=
  [("RPM", .RPM), ("Speed", .SPEED), ("Coolant Temp", .COOLANT_TEMP),
   ("Intake Temp", .INTAKE_TEMP), ("Load", .ENGINE_LOAD), ("Fuel Level", .FUEL_LEVEL),
   ("Throttle Pos", .THROTTLE_POS), ("Timing Advance", .TIMING_ADVANCE)]

/-- The state `__init__`/`init_ui` builds: no connection, every value label
showing the placeholder `--`, timer created but not started. -/
def initOBD : OBDState :=
  { connection := none
    connected := false
    metrics := []
    metricWidgets := metricsTable.map (fun p => ⟨p.1, p.2, "--"⟩)
    timerActive := false
    connectButtonText := "Connect"
    statusText := "Disconnected"
    statusColor := "red" }

/-- Python dict assignment `self.metrics[name] = value`: replace in place if
the key exists, else append. -/
def updateDict (d : List (String × Value)) (k : String) (v : Value) : List (String × Value) :=
  if d.any (fun p => p.1 = k) then d.map (fun p => if p.1 = k then (k, v) else p)
  else d ++ [(k, v)]

/-- Display text `update_metrics` writes on a hit: `f"{magnitude:.1f} {units}"`
for a quantity (the `:.1f` rounding already folded into the stored magnitude
text), `str(value)` otherwise. -/
def displayText : Value → String
  | .quantity m u => m ++ " " ++ u
  | v => v.str

/-- The `for name, data in self.metric_widgets.items()` loop body of
`update_metrics` (lines 188–205): query each command in order; a raised
exception is caught per metric (label `ERR`, one log line) and the loop
continues; a null response shows `N/A`; a value is stored in `metrics` and
displayed. -/
def runMetrics (conn : Connection) (ms : List (String × Value)) :
    List MetricWidget → List MetricWidget × List (String × Value) × List Event
  | [] => ([], ms, [])
  | w :: ws =>
    match conn.query w.command with
    | .exn msg =>
        let r := runMetrics conn ms ws
        ({ w with label := "ERR" } :: r.1, r.2.1,
          .query w.command :: .log ("Error querying " ++ w.name ++ ": " ++ msg) :: r.2.2)
    | .ok .null =>
        let r := runMetrics conn ms ws
        ({ w with label := "N/A" } :: r.1, r.2.1, .query w.command :: r.2.2)
    | .ok (.val v) =>
        let r := runMetrics conn (updateDict ms w.name v) ws
        ({ w with label := displayText v } :: r.1, r.2.1, .query w.command :: r.2.2)

/-- `OBDMonitor.update_metrics` (lines 184–205). -/
def update_metrics (s : OBDState) : OBDState × List Event :=
  if !s.connected || s.connection.isNone then (s, [])
  else
    match s.connection with
    | some conn =>
        let r := runMetrics conn s.metrics s.metricWidgets
        ({ s with metricWidgets := r.1, metrics := r.2.1 }, r.2.2)
    | none => (s, [])

/-- `connection.status()` values used by `connect_obd`. -/
inductive OBDStatus where
  | carConnected
  | obdConnected
  | elmConnected
  | notConnected
  deriving DecidableEq, Repr

def OBDStatus.str : OBDStatus → String
  | .carConnected => "Car Connected"
  | .obdConnected => "OBD Connected"
  | .elmConnected => "ELM Connected"
  | .notConnected => "Not Connected"

/-- Outcome of the `obd.OBD(...)` constructor call inside `connect_obd`. -/
inductive ConnectOutcome where
  | ok (conn : Connection) (status : OBDStatus)
  | exn (msg : String)

/-- `OBDMonitor.connect_obd` (lines 137–165), with the port-field text and
the library call's outcome passed explicitly. Note the constructed handle is
assigned to `self.connection` even when its status is not CAR_CONNECTED. -/
def connect_obd (s : OBDState) (portText : String) (outcome : ConnectOutcome) :
    OBDState × List Event :=
  let pre : List Event :=
    if portText = "" then [.log "No port specified, attempting auto-connect..."]
    else [.log ("Connecting to " ++ portText ++ "...")]
  match outcome with
  | .exn msg =>
      (s, pre ++ [.log ("Error connecting: " ++ msg),
                  .criticalBox "Connection Error" ("Error connecting to OBD: " ++ msg)])
  | .ok conn status =>
      if status = .carConnected then
        ({ s with connection := some conn, connected := true,
                  connectButtonText := "Disconnect", statusText := "Connected",
                  statusColor := "green", timerActive := true },
         pre ++ [.log "Successfully connected to vehicle", .timerStart])
      else
        ({ s with connection := some conn },
         pre ++ [.log ("Failed to connect: " ++ status.str),
                 .warnBox "Connection Error" ("Failed to connect to OBD: " ++ status.str)])

/-- `update_metrics` resets value labels to `--` on disconnect. -/
def resetLabels (ws : List MetricWidget) : List MetricWidget :=
  ws.map (fun w => { w with label := "--" })

/-- `OBDMonitor.disconnect_obd` (lines 167–182): stop the timer and close the
handle only when one exists, then unconditionally reset the flags, button,
status and value labels. -/
def disconnect_obd (s : OBDState) : OBDState × List Event :=
  let r : OBDState × List Event :=
    match s.connection with
    | some _ => ({ s with timerActive := false, connection := none }, [.timerStop, .close])
    | none => (s, [])
  ({ r.1 with connected := false, connectButtonText := "Connect",
              statusText := "Disconnected", statusColor := "red",
              metricWidgets := resetLabels r.1.metricWidgets },
   r.2 ++ [.log "Disconnected from vehicle"])

/-- `OBDMonitor.toggle_connection` (lines 131–135). -/
def toggle_connection (s : OBDState) (portText : String) (outcome : ConnectOutcome) :
    OBDState × List Event :=
  if s.connected then disconnect_obd s else connect_obd s portText outcome

/-- Python truthiness of `response.value` in `read_dtc`. -/
def valueFalsy : Value → Bool
  | .dtcList l => l.isEmpty
  | .plain s => s = ""
  | .quantity _ _ => false

/-- `OBDMonitor.read_dtc` (lines 207–227). -/
def read_dtc (s : OBDState) : OBDState × List Event :=
  if !s.connected || s.connection.isNone then
    (s, [.warnBox "Not Connected" "Please connect to vehicle first"])
  else
    match s.connection with
    | some conn =>
        let pre : List Event := [.log "Reading Diagnostic Trouble Codes...", .query .GET_DTC]
        match conn.query .GET_DTC with
        | .exn msg =>
            (s, pre ++ [.log ("Error reading DTCs: " ++ msg),
                        .criticalBox "DTC Error" ("Error reading DTCs: " ++ msg)])
        | .ok .null => (s, pre ++ [.log "No DTCs returned"])
        | .ok (.val v) =>
            if valueFalsy v then (s, pre ++ [.log "No DTCs found"])
            else
              match v with
              | .dtcList l =>
                  (s, pre ++ [.log ("Found " ++ toString l.length ++ " DTCs:")] ++
                      l.map (fun p => .log ("  " ++ p.1 ++ ": " ++ p.2)))
              | _ => (s, pre)
    | none => (s, [])

/-- `OBDMonitor.clear_dtc` (lines 229–245), with the confirmation dialog's
answer passed explicitly. -/
def clear_dtc (s : OBDState) (userConfirms : Bool) : OBDState × List Event :=
  if !s.connected || s.connection.isNone then
    (s, [.warnBox "Not Connected" "Please connect to vehicle first"])
  else if userConfirms then
    match s.connection with
    | some conn =>
        let pre : List Event := [.log "Clearing DTCs...", .query .CLEAR_DTC]
        match conn.query .CLEAR_DTC with
        | .exn msg =>
            (s, pre ++ [.log ("Error clearing DTCs: " ++ msg),
                        .criticalBox "DTC Error" ("Error clearing DTCs: " ++ msg)])
        | .ok _ => (s, pre ++ [.log "DTCs cleared successfully"])
    | none => (s, [])
  else (s, [])

/-- One CSV data row of `save_metrics` (lines 252–256): a value with
`magnitude` and `units` attributes fills all three columns, any other value
is printed with an empty unit column. -/
def csvLine (name : String) (v : Value) : String :=
  match v with
  | .quantity m u => name ++ "," ++ m ++ "," ++ u
  | v => name ++ "," ++ v.str ++ ","

/-- `OBDMonitor.save_metrics` (lines 247–261): the header line, then the
loop over `self.metrics.items()` appending one row each. -/
def save_metrics (s : OBDState) (filename : String) : OBDState × List Event :=
  let lines := s.metrics.foldl (fun acc p => acc ++ [csvLine p.1 p.2]) ["Metric,Value,Unit"]
  (s, [.writeFile lines, .log ("Metrics saved to " ++ filename),
       .infoBox "Metrics Saved" ("Metrics saved to " ++ filename)])

end OBDMonitor

namespace MainWindow

open ELM327

/-- Module-level default connection settings of `src/src/main.py`
(lines 14–17). -/
def DEFAULT_HOST : String := "192.168.0.10"

def DEFAULT_PORT : String := "35000"

def DEFAULT_CONNECTION_STRING : String := DEFAULT_HOST ++ ":" ++ DEFAULT_PORT

/-- The class attribute `AUTO_CONNECT` as written in the source. -/
def AUTO_CONNECT : Bool := true

/-- The `obd.OBD` handle as `MainWindow` uses it: the port it was opened on,
`is_connected()`, `supported_commands`, and query behaviour. -/
structure MWConnection where
  port : String
  is_connected : Bool
  supported_commands : List Command
  query : Command → QueryResult

/-- `cmd in connection.supported_commands`, the library's `supports`. -/
def MWConnection.supports (c : MWConnection) (cmd : Command) : Bool :=
  c.supported_commands.contains cmd

/-- The `obd.Async` watcher `start_monitoring` builds: the port it was given,
the single command passed to `watch`, and whether `start()` ran. -/
structure AsyncConn where
  port : String
  watched : Command
  started : Bool
  deriving DecidableEq, Repr

/-- The mutable state of the `MainWindow` window. -/
structure MWState where
  host : String
  port : String
  hostInput : String
  portInput : String
  connection : Option MWConnection
  asyncConnection : Option AsyncConn
  dataLog : List (Nat × String)
  statusText : String
  vinText : String
  dataText : String
  connectEnabled : Bool
  disconnectEnabled : Bool
  startEnabled : Bool
  stopEnabled : Bool
  comboItems : List String
  comboIndex : Nat

/-- Externally visible effects of one `MainWindow` handler invocation. -/
inductive MWEvent where
  | warnBox (title msg : String)
  | criticalBox (title msg : String)
  | connectAttempt (connStr : String)
  | query (c : Command)
  | asyncStop
  | close
  | watch (c : Command)
  | asyncStart
  | emitData (v : String)
  | scheduleConnect
  deriving DecidableEq, Repr

/-- Python `a or b` on an optional string argument: `None` and the empty
string both fall through to `b` (`self.host = host or self.DEFAULT_HOST`). -/
def pyOr (a : Option String) (b : String) : String :=
  match a with
  | none => b
  | some s => if s = "" then b else s

/-- `MainWindow.__init__` (lines 19–90): per-instance host/port resolved from
the constructor arguments, input fields pre-filled with them, everything
disconnected, and — when the class flag is set — a connect scheduled at
startup via `QTimer.singleShot`. -/
def mkMainWindow (hostArg portArg : Option String) (autoConnect : Bool) :
    MWState × List MWEvent :=
  let h := pyOr hostArg DEFAULT_HOST
  let p := pyOr portArg DEFAULT_PORT
  ({ host := h, port := p, hostInput := h, portInput := p,
     connection := none, asyncConnection := none, dataLog := [],
     statusText := "Status: Disconnected", vinText := "VIN: N/A",
     dataText := "Data: N/A",
     connectEnabled := true, disconnectEnabled := false,
     startEnabled := false, stopEnabled := false,
     comboItems := ["Select a metric"], comboIndex := 0 },
   if autoConnect then [.scheduleConnect] else [])

/-- The `__main__` block (lines 194–204): `--no-auto-connect` clears the
class flag, otherwise the source's `AUTO_CONNECT` stands. -/
def mainAutoConnect (noAutoConnectFlag : Bool) : Bool :=
  if noAutoConnectFlag then false else AUTO_CONNECT

/-- The connection string built at the top of `connect_to_adapter`
(lines 94–96): each input field's text, or on an empty field the
per-instance `self.host` / `self.port`. -/
def connection_string (s : MWState) : String :=
  let host := if s.hostInput = "" then s.host else s.hostInput
  let port := if s.portInput = "" then s.port else s.portInput
  host ++ ":" ++ port

/-- Outcome of `obd.OBD(connection_string)` inside `connect_to_adapter`. -/
inductive MWConnectOutcome where
  | ok (conn : MWConnection)
  | exn (msg : String)

/-- `MainWindow.connect_to_adapter` (lines 92–127). An exception from the
constructor or from the VIN query lands in the `except` branch (status reset
to Disconnected, critical box); note the handle stays assigned in the latter
case because the assignment already happened. -/
def connect_to_adapter (s : MWState) (outcome : MWConnectOutcome) :
    MWState × List MWEvent :=
  let cs := connection_string s
  match outcome with
  | .exn msg =>
      ({ s with statusText := "Status: Disconnected" },
       [.connectAttempt cs, .criticalBox "Error" ("Connection error: " ++ msg)])
  | .ok conn =>
      if conn.is_connected then
        let s1 := { s with connection := some conn,
                           statusText := "Status: Connected to " ++ cs,
                           connectEnabled := false, disconnectEnabled := true,
                           startEnabled := true }
        match (if conn.supports .VIN then some (conn.query .VIN) else none) with
        | some (.exn msg) =>
            ({ s1 with statusText := "Status: Disconnected" },
             [.connectAttempt cs, .query .VIN,
              .criticalBox "Error" ("Connection error: " ++ msg)])
        | vinRes =>
            let s2 :=
              match vinRes with
              | some (.ok (.val v)) => { s1 with vinText := "VIN: " ++ v.str }
              | some (.ok .null) => { s1 with vinText := "VIN: Not Available" }
              | _ => s1
            let names := (conn.supported_commands.filter
              (fun c => c.cname ≠ "VIN")).map Command.cname
            ({ s2 with comboItems := names, comboIndex := 0 },
             [.connectAttempt cs] ++
               (if conn.supports .VIN then [.query .VIN] else []))
      else
        ({ s with connection := some conn, statusText := "Status: Connection Failed" },
         [.connectAttempt cs,
          .criticalBox "Error" ("Failed to connect to the adapter at " ++ cs ++ ".")])

/-- `MainWindow.disconnect_from_adapter` (lines 129–144): stop the watcher
and close the handle only when they exist, then unconditionally reset labels,
buttons and the combo selection. -/
def disconnect_from_adapter (s : MWState) : MWState × List MWEvent :=
  let r1 : MWState × List MWEvent :=
    match s.asyncConnection with
    | some _ => ({ s with asyncConnection := none }, [.asyncStop])
    | none => (s, [])
  let r2 : MWState × List MWEvent :=
    match r1.1.connection with
    | some _ => ({ r1.1 with connection := none }, [.close])
    | none => (r1.1, [])
  ({ r2.1 with statusText := "Status: Disconnected",
               connectEnabled := true, disconnectEnabled := false,
               startEnabled := false, stopEnabled := false,
               vinText := "VIN: N/A", dataText := "Data: N/A",
               comboIndex := 0 },
   r1.2 ++ r2.2)

/-- `self.metrics_combo.currentText()`. -/
def currentText (s : MWState) : String :=
  s.comboItems.getD s.comboIndex ""

/-- `obd.commands[name]`: the catalog lookup; an unknown name raises
`KeyError`, embedded as `none`. -/
def commandOfName (n : String) : Option Command :=
  (([Command.RPM, .SPEED, .COOLANT_TEMP, .INTAKE_TEMP, .ENGINE_LOAD, .FUEL_LEVEL,
     .THROTTLE_POS, .TIMING_ADVANCE, .GET_DTC, .CLEAR_DTC, .VIN] :
      List Command).find? (fun c => c.cname = n))

/-- `MainWindow.stop_monitoring` (lines 168–175). -/
def stop_monitoring (s : MWState) : MWState × List MWEvent :=
  let r : MWState × List MWEvent :=
    match s.asyncConnection with
    | some _ => ({ s with asyncConnection := none }, [.asyncStop])
    | none => (s, [])
  ({ r.1 with startEnabled := true, stopEnabled := false, dataText := "Data: N/A" },
   r.2)

/-- `MainWindow.start_monitoring` (lines 146–166): guard on the synchronous
connection and the combo selection, then unconditionally build a fresh
`obd.Async` on the connection's port, watch the selected command and start
it — overwriting whatever `self.async_connection` held. A `KeyError` from
the catalog lookup lands in the `except` branch (critical box, then
`stop_monitoring`). -/
def start_monitoring (s : MWState) : MWState × List MWEvent :=
  match s.connection with
  | none => (s, [.warnBox "Warning" "Not connected to the adapter."])
  | some conn =>
      if !conn.is_connected then
        (s, [.warnBox "Warning" "Not connected to the adapter."])
      else
        let sel := currentText s
        if sel = "Select a metric" ∨ sel = "" then
          (s, [.warnBox "Warning" "Please select a metric to monitor."])
        else
          match commandOfName sel with
          | some cmd =>
              ({ s with asyncConnection := some ⟨conn.port, cmd, true⟩,
                        startEnabled := false, stopEnabled := true },
               [.watch cmd, .asyncStart])
          | none =>
              let r := stop_monitoring s
              (r.1, [.criticalBox "Error" ("Failed to start monitoring: " ++ sel)] ++ r.2)

/-- `MainWindow.on_data_received` (lines 177–183): a null response is
dropped; otherwise one `(timestamp, str(value))` pair is appended to
`data_log` and the `data_updated` signal is emitted once. -/
def on_data_received (s : MWState) (ts : Nat) (r : Response) : MWState × List MWEvent :=
  if !r.is_null then
    match r with
    | .val v => ({ s with dataLog := s.dataLog ++ [(ts, v.str)] }, [.emitData v.str])
    | .null => (s, [])
  else (s, [])

/-- A sequence of watch-callback invocations delivered in order. -/
def processResponses (s : MWState) : List (Nat × Response) → MWState × List MWEvent
  | [] => (s, [])
  | (ts, r) :: rest =>
      let r1 := on_data_received s ts r
      let r2 := processResponses r1.1 rest
      (r2.1, r1.2 ++ r2.2)

/-- `MainWindow.update_data_label` (lines 185–187). -/
def update_data_label (s : MWState) (v : String) : MWState :=
  { s with dataText := "Data: " ++ v }

end MainWindow

namespace SpecModel

open ELM327

/-- Modelled from the spec: the Query Engine's decode step (spec §4.1),
which is implemented inside the external `obd` library and absent from
`src/`. "On success, parses the raw reply using `command.decode`; if
decoding fails (malformed frame, unexpected length), returns a Response with
`is_null = true` rather than raising." -/
def queryDecode (decode : List Nat → Option Value) (raw : List Nat) : Response :=
  match decode raw with
  | none => .null
  | some v => .val v

/-- Modelled from the spec: the Watch Loop's iteration structure (spec §4.2,
§5), implemented inside the external `obd` library's `Async` and absent from
`src/`. The cancellation flag is observed at the start of each iteration
(never mid-query); `stopTime` is the iteration index at whose start the flag
is first seen set, `fuel` bounds the iterations examined, and the returned
list holds the indices of iterations whose query ran and whose callback was
invoked. -/
def watchLoopAux (stopTime : Nat) : Nat → Nat → List Nat
  | _, 0 => []
  | i, fuel + 1 =>
      if stopTime ≤ i then []
      else i :: watchLoopAux stopTime (i + 1) fuel

/-- The callback invocations of a watch loop run from iteration 0. -/
def watchLoopCalls (stopTime fuel : Nat) : List Nat :=
  watchLoopAux stopTime 0 fuel

end SpecModel

namespace OBDMonitor

open ELM327

/-- The command catalog a state carries: each metric name with the command
stored beside it in `metric_widgets`. -/
def catalog (s : OBDState) : List (String × Command) :=
  s.metricWidgets.map (fun w => (w.name, w.command))

/-- Recognizes a query issued on the connection. -/
def isQueryEvent : Event → Bool
  | .query _ => true
  | _ => false

/-- Recognizes a console log line; inside `update_metrics` the only log
lines are the per-metric error logs of the `except` branch. -/
def isErrLog : Event → Bool
  | .log _ => true
  | _ => false

/-- A connection handle whose every query raises a transport-level
exception (the socket was closed mid-session). -/
def brokenConn : Connection :=
  ⟨fun _ => .exn "TransportError: connection closed"⟩

/-- A connected, polling monitor whose transport just broke. -/
def brokenState : OBDState :=
  { initOBD with connection := some brokenConn, connected := true, timerActive := true }

/-- A healthy connection whose every query decodes to the null response. -/
def nullConn : Connection :=
  ⟨fun _ => .ok .null⟩

end OBDMonitor

namespace MainWindow

open ELM327

/-- A live synchronous connection handle. -/
def runningConn : MWConnection :=
  { port := "192.168.0.10:35000", is_connected := true,
    supported_commands := [.RPM, .SPEED], query := fun _ => .ok .null }

/-- A window in the Running state: watcher active on RPM, combo selection
moved to SPEED, start disabled / stop enabled. -/
def runningState : MWState :=
  { (mkMainWindow none none false).1 with
      connection := some runningConn,
      asyncConnection := some ⟨"192.168.0.10:35000", Command.RPM, true⟩,
      comboItems := ["RPM", "SPEED"], comboIndex := 1,
      startEnabled := false, stopEnabled := true }

/-- A window constructed with an explicit host argument, both input fields
cleared by the user. -/
def customHostState : MWState :=
  { (mkMainWindow (some "10.0.0.5") none false).1 with
      hostInput := "", portInput := "" }

end MainWindow

namespace OBDMonitor

open ELM327

theorem foldl_push {α β : Type} (f : α → β) (l : List α) (acc : List β) :
    l.foldl (fun a p => a ++ [f p]) acc = acc ++ l.map f := by
  induction l generalizing acc with
  | nil => simp
  | cons p l ih => simp [List.foldl_cons, ih]

theorem runMetrics_map_proj (conn : Connection) (ms : List (String × Value))
    (ws : List MetricWidget) :
    (runMetrics conn ms ws).1.map (fun w => (w.name, w.command))
      = ws.map (fun w => (w.name, w.command)) := by
  induction ws generalizing ms with
  | nil => rfl
  | cons w ws ih =>
      cases h : conn.query w.command with
      | exn msg => simp [runMetrics, h, ih]
      | ok r =>
          cases r with
          | null => simp [runMetrics, h, ih]
          | val v => simp [runMetrics, h, ih]

theorem read_dtc_fst (s : OBDState) : (read_dtc s).1 = s := by
  unfold read_dtc
  repeat' split
  all_goals rfl

theorem clear_dtc_fst (s : OBDState) (confirm : Bool) : (clear_dtc s confirm).1 = s := by
  unfold clear_dtc
  repeat' split
  all_goals rfl

theorem update_metrics_fixed_fields (s : OBDState) :
    (update_metrics s).1.connection = s.connection
    ∧ (update_metrics s).1.connected = s.connected
    ∧ (update_metrics s).1.timerActive = s.timerActive := by
  unfold update_metrics
  split
  · exact ⟨rfl, rfl, rfl⟩
  · cases h : s.connection <;> simp [h]

theorem runMetrics_all_exn (conn : Connection) (m : String)
    (hq : ∀ c, conn.query c = .exn m) (ms : List (String × Value)) :
    ∀ ws : List MetricWidget,
      runMetrics conn ms ws
        = (ws.map (fun w => { w with label := "ERR" }), ms,
           ws.flatMap (fun w =>
             [.query w.command, .log ("Error querying " ++ w.name ++ ": " ++ m)])) := by
  intro ws
  induction ws with
  | nil => simp [runMetrics]
  | cons w ws ih => simp [runMetrics, hq, ih]

/-- C6: the save-to-file action writes a single header row
`Metric,Value,Unit` and then exactly one `name,value,unit` row per stored
metric, in order; a stored value that carries no unit gets an empty unit
column. -/
theorem save_metrics_rows (s : OBDState) (filename : String) :
    (save_metrics s filename).1 = s
    ∧ (save_metrics s filename).2
        = [.writeFile ("Metric,Value,Unit" :: s.metrics.map (fun p => csvLine p.1 p.2)),
           .log ("Metrics saved to " ++ filename),
           .infoBox "Metrics Saved" ("Metrics saved to " ++ filename)]
    ∧ ("Metric,Value,Unit" :: s.metrics.map (fun p => csvLine p.1 p.2)).length
        = s.metrics.length + 1
    ∧ (∀ n m u, csvLine n (.quantity m u) = n ++ "," ++ m ++ "," ++ u)
    ∧ (∀ n v, csvLine n (.plain v) = n ++ "," ++ v ++ ",") := by
  refine ⟨rfl, ?_, by simp, fun n m u => rfl, fun n v => rfl⟩
  simp only [save_metrics, foldl_push]
  rfl

/-- C7: the command catalog (metric name to command) is built at startup
from the static table and is unchanged by every operation of the
application; only value labels move. -/
theorem catalog_static :
    catalog initOBD = metricsTable
    ∧ (∀ s portText outcome, catalog (connect_obd s portText outcome).1 = catalog s)
    ∧ (∀ s, catalog (disconnect_obd s).1 = catalog s)
    ∧ (∀ s, catalog (update_metrics s).1 = catalog s)
    ∧ (∀ s, catalog (read_dtc s).1 = catalog s)
    ∧ (∀ s confirm, catalog (clear_dtc s confirm).1 = catalog s)
    ∧ (∀ s filename, catalog (save_metrics s filename).1 = catalog s) := by
  refine ⟨rfl, ?_, ?_, ?_, ?_, ?_, fun s filename => rfl⟩
  · intro s portText outcome
    cases outcome with
    | exn msg => rfl
    | ok conn status =>
        unfold connect_obd
        by_cases h : status = OBDStatus.carConnected <;> simp [h, catalog]
  · intro s
    unfold disconnect_obd
    cases h : s.connection <;>
      simp [catalog, resetLabels, List.map_map, Function.comp]
  · intro s
    unfold update_metrics
    split
    · rfl
    · cases h : s.connection with
      | none => simp [h]
      | some conn => simp [h, catalog, runMetrics_map_proj]
  · intro s
    rw [read_dtc_fst]
  · intro s confirm
    rw [clear_dtc_fst]

/-- C9: whenever the monitor is not connected or holds no connection
handle, `update_metrics` returns immediately, and `read_dtc` / `clear_dtc`
show a warning and return: no query is issued and the stored metrics are
untouched. -/
theorem not_connected_no_query (s : OBDState) (confirm : Bool)
    (h : s.connected = false ∨ s.connection = none) :
    update_metrics s = (s, [])
    ∧ read_dtc s = (s, [.warnBox "Not Connected" "Please connect to vehicle first"])
    ∧ clear_dtc s confirm = (s, [.warnBox "Not Connected" "Please connect to vehicle first"]) := by
  have hguard : (!s.connected || s.connection.isNone) = true := by
    rcases h with h | h <;> simp [h]
  exact ⟨by simp [update_metrics, hguard], by simp [read_dtc, hguard],
         by simp [clear_dtc, hguard]⟩

theorem update_metrics_all_exn (s : OBDState) (conn : Connection) (m : String)
    (hcon : s.connection = some conn) (hc : s.connected = true)
    (hq : ∀ c, conn.query c = .exn m) :
    update_metrics s
      = ({ s with metricWidgets := s.metricWidgets.map (fun w => { w with label := "ERR" }) },
         s.metricWidgets.flatMap (fun w =>
           [.query w.command, .log ("Error querying " ++ w.name ++ ": " ++ m)])) := by
  unfold update_metrics
  simp [hcon, hc, runMetrics_all_exn conn m hq]

/-- C2 (amended): a transport-level exception raised by a query inside
`update_metrics` is caught per metric — the error is logged once per metric
and that metric's label set to `ERR` — and polling continues: the timer is
untouched, the broken connection is kept, the stored metrics are unchanged,
and the next tick issues the same queries against it again. -/
theorem transport_error_caught_per_metric (s : OBDState) (conn : Connection) (m : String)
    (hcon : s.connection = some conn) (hc : s.connected = true)
    (hq : ∀ c, conn.query c = .exn m) :
    (update_metrics s).1.timerActive = s.timerActive
    ∧ (update_metrics s).1.connected = true
    ∧ (update_metrics s).1.connection = some conn
    ∧ (update_metrics s).1.metrics = s.metrics
    ∧ (update_metrics s).1.metricWidgets
        = s.metricWidgets.map (fun w => { w with label := "ERR" })
    ∧ (update_metrics s).2
        = s.metricWidgets.flatMap (fun w =>
            [.query w.command, .log ("Error querying " ++ w.name ++ ": " ++ m)])
    ∧ (update_metrics (update_metrics s).1).2
        = (update_metrics s).1.metricWidgets.flatMap (fun w =>
            [.query w.command, .log ("Error querying " ++ w.name ++ ": " ++ m)]) := by
  have h1 := update_metrics_all_exn s conn m hcon hc hq
  have h2 := update_metrics_all_exn (update_metrics s).1 conn m
    (by rw [h1]; exact hcon) (by rw [h1]; exact hc) hq
  rw [h1] at h2 ⊢
  exact ⟨rfl, hc, hcon, rfl, rfl, rfl, by rw [h2]⟩

/-- C2 counterexample: on a state whose transport just broke (every query
raises), `update_metrics` does not stop the timer, logs the error once per
metric (eight times, not once), and issues all eight queries — the claimed
behaviour (timer stops, a single upward report, no further queries) is
false on this input. -/
theorem transport_error_swallowed_cex :
    (update_metrics brokenState).1.timerActive = true
    ∧ ((update_metrics brokenState).2.filter isErrLog).length = 8
    ∧ ((update_metrics brokenState).2.filter isQueryEvent).length = 8
    ∧ ¬ ((update_metrics brokenState).1.timerActive = false
         ∧ ((update_metrics brokenState).2.filter isErrLog).length ≤ 1) := by
  refine ⟨rfl, rfl, rfl, ?_⟩
  intro h
  have ht : (update_metrics brokenState).1.timerActive = true := rfl
  rw [h.1] at ht
  cases ht

/-- C4: a reply that cannot be decoded becomes a Response with
`is_null = true` rather than a raised exception (Query Engine decode step
modelled from the spec, since it lives in the external library), and the
consumer treats it as recoverable: the metric label shows `N/A`, the stored
metrics are untouched, and `update_metrics` never changes the connection,
the connected flag or the timer. -/
theorem null_response_recoverable
    (decode : List Nat → Option Value) (raw : List Nat)
    (conn : Connection) (ms : List (String × Value)) (w : MetricWidget)
    (hd : decode raw = none) (hq : conn.query w.command = .ok .null) :
    (SpecModel.queryDecode decode raw).is_null = true
    ∧ runMetrics conn ms [w] = ([{ w with label := "N/A" }], ms, [.query w.command])
    ∧ (∀ s, (update_metrics s).1.connection = s.connection
        ∧ (update_metrics s).1.connected = s.connected
        ∧ (update_metrics s).1.timerActive = s.timerActive) := by
  refine ⟨by simp [SpecModel.queryDecode, hd, Response.is_null], ?_,
          update_metrics_fixed_fields⟩
  simp [runMetrics, hq]

/-- Witness for C4: a decoder that fails on the empty frame, and a
connection answering the RPM widget with the null response. -/
theorem null_response_recoverable_witness :
    (SpecModel.queryDecode (fun _ => none) []).is_null = true
    ∧ runMetrics nullConn [] [⟨"RPM", Command.RPM, "--"⟩]
        = ([⟨"RPM", Command.RPM, "N/A"⟩], [], [.query Command.RPM]) :=
  ⟨(null_response_recoverable (fun _ => none) [] nullConn [] ⟨"RPM", Command.RPM, "--"⟩
      rfl rfl).1,
   (null_response_recoverable (fun _ => none) [] nullConn [] ⟨"RPM", Command.RPM, "--"⟩
      rfl rfl).2.1⟩

/-- Witness for C2 (amended): the broken monitor with its eight metric
widgets. -/
theorem transport_error_caught_per_metric_witness :
    (update_metrics brokenState).1.timerActive = brokenState.timerActive
    ∧ (update_metrics brokenState).1.connected = true
    ∧ (update_metrics brokenState).1.connection = some brokenConn
    ∧ (update_metrics brokenState).1.metrics = brokenState.metrics
    ∧ (update_metrics brokenState).1.metricWidgets
        = brokenState.metricWidgets.map (fun w => { w with label := "ERR" })
    ∧ (update_metrics brokenState).2
        = brokenState.metricWidgets.flatMap (fun w =>
            [.query w.command,
             .log ("Error querying " ++ w.name ++ ": " ++ "TransportError: connection closed")])
    ∧ (update_metrics (update_metrics brokenState).1).2
        = (update_metrics brokenState).1.metricWidgets.flatMap (fun w =>
            [.query w.command,
             .log ("Error querying " ++ w.name ++ ": " ++ "TransportError: connection closed")]) :=
  transport_error_caught_per_metric brokenState brokenConn
    "TransportError: connection closed" rfl rfl (fun _ => rfl)

theorem disconnect_obd_idem (s : OBDState) :
    (disconnect_obd (disconnect_obd s).1).1 = (disconnect_obd s).1 := by
  obtain ⟨c, cn, ms, mw, t, cb, st, sc⟩ := s
  cases c <;> simp [disconnect_obd, resetLabels, List.map_map, Function.comp]

theorem disconnect_obd_fields (s : OBDState) :
    (disconnect_obd s).1.connected = false
    ∧ (disconnect_obd s).1.connection = none
    ∧ (disconnect_obd s).1.connectButtonText = "Connect"
    ∧ (disconnect_obd s).1.statusText = "Disconnected"
    ∧ ((disconnect_obd s).1.metricWidgets.all (fun w => w.label == "--")) = true := by
  cases h : s.connection <;> simp [disconnect_obd, h, resetLabels, List.all_map]

theorem disconnect_obd_timer (s : OBDState)
    (hs : s.timerActive = true → s.connection.isSome = true) :
    (disconnect_obd s).1.timerActive = false := by
  cases h : s.connection with
  | some c => simp [disconnect_obd, h]
  | none =>
      have ht : s.timerActive = false := by
        cases ht : s.timerActive
        · rfl
        · have hq := hs ht
          rw [h] at hq
          cases hq
      simp [disconnect_obd, h, ht]

theorem disconnect_obd_noop (s : OBDState) (h : s.connection = none) :
    (disconnect_obd s).2 = [.log "Disconnected from vehicle"] := by
  simp [disconnect_obd, h]

/-- Witness for C9: the freshly initialised, disconnected monitor. -/
theorem not_connected_no_query_witness :
    update_metrics initOBD = (initOBD, [])
    ∧ read_dtc initOBD = (initOBD, [.warnBox "Not Connected" "Please connect to vehicle first"])
    ∧ clear_dtc initOBD true
        = (initOBD, [.warnBox "Not Connected" "Please connect to vehicle first"]) :=
  not_connected_no_query initOBD true (Or.inl rfl)

end OBDMonitor

namespace MainWindow

open ELM327

theorem processResponses_dataLog (s : MWState) (rs : List (Nat × Response)) :
    (processResponses s rs).1.dataLog
      = s.dataLog ++ rs.filterMap (fun p =>
          match p.2 with | .null => none | .val v => some (p.1, v.str)) := by
  induction rs generalizing s with
  | nil => simp [processResponses]
  | cons pr rest ih =>
      obtain ⟨ts, r⟩ := pr
      cases r with
      | null => simp [processResponses, on_data_received, Response.is_null, ih]
      | val v => simp [processResponses, on_data_received, Response.is_null, ih]

theorem disconnect_from_adapter_idem (t : MWState) :
    (disconnect_from_adapter (disconnect_from_adapter t).1).1
      = (disconnect_from_adapter t).1 := by
  obtain ⟨h, p, hi, pi, c, a, dl, st, vt, dt, ce, de, se, spe, ci, cx⟩ := t
  cases c <;> cases a <;> simp [disconnect_from_adapter]

theorem disconnect_from_adapter_fields (t : MWState) :
    (disconnect_from_adapter t).1.connection = none
    ∧ (disconnect_from_adapter t).1.asyncConnection = none
    ∧ (disconnect_from_adapter t).1.connectEnabled = true
    ∧ (disconnect_from_adapter t).1.disconnectEnabled = false
    ∧ (disconnect_from_adapter t).1.startEnabled = false
    ∧ (disconnect_from_adapter t).1.stopEnabled = false
    ∧ (disconnect_from_adapter t).1.dataText = "Data: N/A"
    ∧ (disconnect_from_adapter t).1.vinText = "VIN: N/A" := by
  cases hc : t.connection <;> cases ha : t.asyncConnection <;>
    simp [disconnect_from_adapter, hc, ha]

theorem disconnect_from_adapter_noop (t : MWState)
    (hc : t.connection = none) (ha : t.asyncConnection = none) :
    (disconnect_from_adapter t).2 = [] := by
  simp [disconnect_from_adapter, hc, ha]

/-- C8: a null response leaves the data log and displayed value untouched
and emits no signal; a non-null response appends exactly one
`(timestamp, str(value))` pair and emits exactly one update; consequently
`data_log` holds exactly the non-null responses, in callback-invocation
order. -/
theorem on_data_received_filters_null :
    (∀ (s : MWState) (ts : Nat), on_data_received s ts .null = (s, []))
    ∧ (∀ (s : MWState) (ts : Nat) (v : Value),
        on_data_received s ts (.val v)
          = ({ s with dataLog := s.dataLog ++ [(ts, v.str)] }, [.emitData v.str]))
    ∧ (∀ (s : MWState) (rs : List (Nat × Response)),
        (processResponses s rs).1.dataLog
          = s.dataLog ++ rs.filterMap (fun p =>
              match p.2 with | .null => none | .val v => some (p.1, v.str))) :=
  ⟨fun _ _ => rfl, fun _ _ _ => rfl, processResponses_dataLog⟩

/-- C1 counterexample: with the watcher already Running on RPM and SPEED
selected, invoking `start_monitoring` raises no error and replaces the
subscription — afterwards `async_connection` watches SPEED, not RPM, so the
claimed `AlreadyRunningError` / keep-first-subscription behaviour is false
on this input. -/
theorem start_second_command_replaces_cex :
    runningState.asyncConnection = some ⟨"192.168.0.10:35000", Command.RPM, true⟩
    ∧ (start_monitoring runningState).1.asyncConnection
        = some ⟨"192.168.0.10:35000", Command.SPEED, true⟩
    ∧ (start_monitoring runningState).1.asyncConnection ≠ runningState.asyncConnection
    ∧ (start_monitoring runningState).2 = [.watch Command.SPEED, .asyncStart] :=
  ⟨rfl, rfl, by decide, rfl⟩

/-- C1 (amended): `start_monitoring` performs no already-running check —
whenever the synchronous connection is live and a valid metric is selected,
it builds a fresh `obd.Async` on the connection's port, watches the newly
selected command and assigns it to `async_connection`, overwriting any
active subscription without error; only the start control being disabled
after a successful start prevents a second start through the UI. -/
theorem start_monitoring_overwrites (s : MWState) (conn : MWConnection) (cmd : Command)
    (hcon : s.connection = some conn) (hic : conn.is_connected = true)
    (hsel1 : currentText s ≠ "Select a metric") (hsel2 : currentText s ≠ "")
    (hcmd : commandOfName (currentText s) = some cmd) :
    (start_monitoring s).1.asyncConnection = some ⟨conn.port, cmd, true⟩
    ∧ (start_monitoring s).1.startEnabled = false
    ∧ (start_monitoring s).1.stopEnabled = true
    ∧ (start_monitoring s).2 = [.watch cmd, .asyncStart] := by
  unfold start_monitoring
  rw [hcon]
  simp [hic, hsel1, hsel2, hcmd]

/-- Witness for C1 (amended): the Running window watching RPM, with SPEED
selected. -/
theorem start_monitoring_overwrites_witness :
    (start_monitoring runningState).1.asyncConnection
        = some ⟨runningConn.port, Command.SPEED, true⟩
    ∧ (start_monitoring runningState).1.startEnabled = false
    ∧ (start_monitoring runningState).1.stopEnabled = true
    ∧ (start_monitoring runningState).2 = [.watch Command.SPEED, .asyncStart] :=
  start_monitoring_overwrites runningState runningConn Command.SPEED rfl rfl
    (by decide) (by decide) rfl

theorem watchLoopAux_lt (stopTime : Nat) :
    ∀ (fuel i j : Nat), j ∈ SpecModel.watchLoopAux stopTime i fuel → j < stopTime := by
  intro fuel
  induction fuel with
  | zero =>
      intro i j hj
      simp [SpecModel.watchLoopAux] at hj
  | succ n ih =>
      intro i j hj
      unfold SpecModel.watchLoopAux at hj
      split at hj
      · simp at hj
      · rename_i hlt
        rcases List.mem_cons.mp hj with h | h
        · subst h
          omega
        · exact ih (i + 1) j h

/-- C3: after `stop_monitoring` returns, the Watch Loop is back in Idle —
`async_connection` is None, the start control re-enabled, the stop control
disabled, the data display reset — and (loop body modelled from the spec,
since the watcher thread lives in the external library) a loop that first
observes the stop flag at iteration `stopTime` invokes callbacks only for
iterations strictly before it: at most the one in-flight query after stop
was requested. -/
theorem stop_monitoring_returns_to_idle (s : MWState) (stopTime fuel j : Nat)
    (hj : j ∈ SpecModel.watchLoopCalls stopTime fuel) :
    (stop_monitoring s).1.asyncConnection = none
    ∧ (stop_monitoring s).1.startEnabled = true
    ∧ (stop_monitoring s).1.stopEnabled = false
    ∧ (stop_monitoring s).1.dataText = "Data: N/A"
    ∧ j < stopTime := by
  have h1 : (stop_monitoring s).1.asyncConnection = none := by
    unfold stop_monitoring
    cases h : s.asyncConnection <;> simp [h]
  exact ⟨h1, rfl, rfl, rfl, watchLoopAux_lt stopTime fuel 0 j hj⟩

/-- Witness for C3: the freshly constructed window; a loop whose stop flag
is first seen at iteration 1 (set during iteration 0) delivers only the
in-flight callback 0. -/
theorem stop_monitoring_returns_to_idle_witness :
    (stop_monitoring (mkMainWindow none none false).1).1.asyncConnection = none
    ∧ (stop_monitoring (mkMainWindow none none false).1).1.startEnabled = true
    ∧ (stop_monitoring (mkMainWindow none none false).1).1.stopEnabled = false
    ∧ (stop_monitoring (mkMainWindow none none false).1).1.dataText = "Data: N/A"
    ∧ 0 < 1 :=
  stop_monitoring_returns_to_idle (mkMainWindow none none false).1 1 2 0 (by decide)

/-- C5 counterexample: a window constructed with host "10.0.0.5" whose
input fields are both empty targets "10.0.0.5:35000" — the instance host,
not the module-level default — so the claimed fallback to
`DEFAULT_CONNECTION_STRING` is false on this input. -/
theorem empty_fields_instance_host_cex :
    customHostState.hostInput = ""
    ∧ customHostState.portInput = ""
    ∧ connection_string customHostState = "10.0.0.5:35000"
    ∧ connection_string customHostState ≠ DEFAULT_CONNECTION_STRING :=
  ⟨rfl, rfl, rfl, by decide⟩

/-- C5 (amended): every connect request uses the string
`"<host>:<port>"` from the input fields, an empty field falling back to the
per-instance host/port fixed at construction — the constructor argument
when given and non-empty, else the module-level defaults — so the
default-constructed window with empty fields targets "192.168.0.10:35000";
the module-level auto-connect flag (cleared by `--no-auto-connect`)
controls whether a connect is scheduled at startup. -/
theorem connection_string_defaults (s : MWState) (portArg : Option String)
    (hstr : String) (b : Bool) (outcome : MWConnectOutcome)
    (h1 : s.hostInput ≠ "") (h2 : s.portInput ≠ "") (h3 : hstr ≠ "") :
    connection_string s = s.hostInput ++ ":" ++ s.portInput
    ∧ connection_string { s with hostInput := "", portInput := "" }
        = s.host ++ ":" ++ s.port
    ∧ (mkMainWindow none portArg b).1.host = DEFAULT_HOST
    ∧ (mkMainWindow (some hstr) portArg b).1.host = hstr
    ∧ (mkMainWindow (some "") portArg b).1.host = DEFAULT_HOST
    ∧ connection_string
        { (mkMainWindow none none b).1 with hostInput := "", portInput := "" }
        = DEFAULT_CONNECTION_STRING
    ∧ (mkMainWindow none none b).2 = (if b then [.scheduleConnect] else [])
    ∧ mainAutoConnect true = false
    ∧ mainAutoConnect false = AUTO_CONNECT
    ∧ (connect_to_adapter s outcome).2.head?
        = some (.connectAttempt (connection_string s)) := by
  refine ⟨by simp [connection_string, h1, h2], by simp [connection_string],
          by simp [mkMainWindow, pyOr], by simp [mkMainWindow, pyOr, h3],
          by simp [mkMainWindow, pyOr], rfl, rfl, rfl, rfl, ?_⟩
  cases outcome with
  | exn msg => rfl
  | ok conn =>
      unfold connect_to_adapter
      by_cases h : conn.is_connected <;> simp [h]
      split <;> rfl

/-- Witness for C5 (amended): a window constructed with explicit host and
port and non-empty fields, a spare non-empty host argument, and a failing
connect outcome. -/
theorem connection_string_defaults_witness :
    connection_string (mkMainWindow (some "10.9.9.9") (some "4242") true).1
        = (mkMainWindow (some "10.9.9.9") (some "4242") true).1.hostInput ++ ":"
          ++ (mkMainWindow (some "10.9.9.9") (some "4242") true).1.portInput
    ∧ connection_string
        { (mkMainWindow (some "10.9.9.9") (some "4242") true).1 with
            hostInput := "", portInput := "" }
        = (mkMainWindow (some "10.9.9.9") (some "4242") true).1.host ++ ":"
          ++ (mkMainWindow (some "10.9.9.9") (some "4242") true).1.port
    ∧ (mkMainWindow none none true).1.host = DEFAULT_HOST
    ∧ (mkMainWindow (some "7.7.7.7") none true).1.host = "7.7.7.7"
    ∧ (mkMainWindow (some "") none true).1.host = DEFAULT_HOST
    ∧ connection_string
        { (mkMainWindow none none true).1 with hostInput := "", portInput := "" }
        = DEFAULT_CONNECTION_STRING
    ∧ (mkMainWindow none none true).2 = (if true then [.scheduleConnect] else [])
    ∧ mainAutoConnect true = false
    ∧ mainAutoConnect false = AUTO_CONNECT
    ∧ (connect_to_adapter (mkMainWindow (some "10.9.9.9") (some "4242") true).1
          (.exn "socket closed")).2.head?
        = some (.connectAttempt
            (connection_string (mkMainWindow (some "10.9.9.9") (some "4242") true).1)) :=
  connection_string_defaults (mkMainWindow (some "10.9.9.9") (some "4242") true).1
    none "7.7.7.7" true (.exn "socket closed") (by decide) (by decide) (by decide)

end MainWindow

/-- C10: disconnecting is idempotent and safe without a connection, in both
windows: a single disconnect reaches the disconnected configuration
(connected false, handles cleared, polling/monitoring stopped, value labels
reset to the placeholder, controls in the disconnected configuration), a
disconnect with no handle performs no connection operation (no close, no
timer or watcher stop), and a second disconnect in a row yields exactly the
state of the first. -/
theorem disconnect_idempotent (s : OBDMonitor.OBDState) (t : MainWindow.MWState)
    (hs : s.timerActive = true → s.connection.isSome = true) :
    ((OBDMonitor.disconnect_obd s).1.connected = false
      ∧ (OBDMonitor.disconnect_obd s).1.connection = none
      ∧ (OBDMonitor.disconnect_obd s).1.timerActive = false
      ∧ (OBDMonitor.disconnect_obd s).1.connectButtonText = "Connect"
      ∧ (OBDMonitor.disconnect_obd s).1.statusText = "Disconnected"
      ∧ ((OBDMonitor.disconnect_obd s).1.metricWidgets.all
            (fun w => w.label == "--")) = true)
    ∧ (s.connection = none →
        (OBDMonitor.disconnect_obd s).2 = [.log "Disconnected from vehicle"])
    ∧ (OBDMonitor.disconnect_obd (OBDMonitor.disconnect_obd s).1).1
        = (OBDMonitor.disconnect_obd s).1
    ∧ ((MainWindow.disconnect_from_adapter t).1.connection = none
      ∧ (MainWindow.disconnect_from_adapter t).1.asyncConnection = none
      ∧ (MainWindow.disconnect_from_adapter t).1.connectEnabled = true
      ∧ (MainWindow.disconnect_from_adapter t).1.disconnectEnabled = false
      ∧ (MainWindow.disconnect_from_adapter t).1.startEnabled = false
      ∧ (MainWindow.disconnect_from_adapter t).1.stopEnabled = false
      ∧ (MainWindow.disconnect_from_adapter t).1.dataText = "Data: N/A"
      ∧ (MainWindow.disconnect_from_adapter t).1.vinText = "VIN: N/A")
    ∧ (MainWindow.disconnect_from_adapter (MainWindow.disconnect_from_adapter t).1).1
        = (MainWindow.disconnect_from_adapter t).1
    ∧ (t.connection = none → t.asyncConnection = none →
        (MainWindow.disconnect_from_adapter t).2 = []) := by
  obtain ⟨f1, f2, f3, f4, f5⟩ := OBDMonitor.disconnect_obd_fields s
  exact ⟨⟨f1, f2, OBDMonitor.disconnect_obd_timer s hs, f3, f4, f5⟩,
         OBDMonitor.disconnect_obd_noop s,
         OBDMonitor.disconnect_obd_idem s,
         MainWindow.disconnect_from_adapter_fields t,
         MainWindow.disconnect_from_adapter_idem t,
         MainWindow.disconnect_from_adapter_noop t⟩

/-- Witness for C10: the freshly initialised monitor (no connection, timer
idle) and the freshly constructed window. -/
theorem disconnect_idempotent_witness :
    ((OBDMonitor.disconnect_obd OBDMonitor.initOBD).1.connected = false
      ∧ (OBDMonitor.disconnect_obd OBDMonitor.initOBD).1.connection = none
      ∧ (OBDMonitor.disconnect_obd OBDMonitor.initOBD).1.timerActive = false
      ∧ (OBDMonitor.disconnect_obd OBDMonitor.initOBD).1.connectButtonText = "Connect"
      ∧ (OBDMonitor.disconnect_obd OBDMonitor.initOBD).1.statusText = "Disconnected"
      ∧ ((OBDMonitor.disconnect_obd OBDMonitor.initOBD).1.metricWidgets.all
            (fun w => w.label == "--")) = true)
    ∧ (OBDMonitor.initOBD.connection = none →
        (OBDMonitor.disconnect_obd OBDMonitor.initOBD).2
          = [.log "Disconnected from vehicle"])
    ∧ (OBDMonitor.disconnect_obd
          (OBDMonitor.disconnect_obd OBDMonitor.initOBD).1).1
        = (OBDMonitor.disconnect_obd OBDMonitor.initOBD).1
    ∧ ((MainWindow.disconnect_from_adapter
          (MainWindow.mkMainWindow none none true).1).1.connection = none
      ∧ (MainWindow.disconnect_from_adapter
          (MainWindow.mkMainWindow none none true).1).1.asyncConnection = none
      ∧ (MainWindow.disconnect_from_adapter
          (MainWindow.mkMainWindow none none true).1).1.connectEnabled = true
      ∧ (MainWindow.disconnect_from_adapter
          (MainWindow.mkMainWindow none none true).1).1.disconnectEnabled = false
      ∧ (MainWindow.disconnect_from_adapter
          (MainWindow.mkMainWindow none none true).1).1.startEnabled = false
      ∧ (MainWindow.disconnect_from_adapter
          (MainWindow.mkMainWindow none none true).1).1.stopEnabled = false
      ∧ (MainWindow.disconnect_from_adapter
          (MainWindow.mkMainWindow none none true).1).1.dataText = "Data: N/A"
      ∧ (MainWindow.disconnect_from_adapter
          (MainWindow.mkMainWindow none none true).1).1.vinText = "VIN: N/A")
    ∧ (MainWindow.disconnect_from_adapter
          (MainWindow.disconnect_from_adapter
            (MainWindow.mkMainWindow none none true).1).1).1
        = (MainWindow.disconnect_from_adapter
            (MainWindow.mkMainWindow none none true).1).1
    ∧ ((MainWindow.mkMainWindow none none true).1.connection = none →
        (MainWindow.mkMainWindow none none true).1.asyncConnection = none →
        (MainWindow.disconnect_from_adapter
          (MainWindow.mkMainWindow none none true).1).2 = []) :=
  disconnect_idempotent OBDMonitor.initOBD (MainWindow.mkMainWindow none none true).1
    (fun h => absurd h (by decide))
